import Mathlib

/-!
Verification of the trackify warehouse simulation core.

The JavaScript inventory is a `Map` from cell-id strings such as
`"B1-L2-R05-D1"` (and aisle endpoints `"AISLE-L{layer}-R14"`) to cell
records.  Cell-id strings are modelled by their parsed integer components
(`BinId`), the map by an association list with the `Map.get`/`Map.set`
semantics (`getCell`/`setCell`), and pallet-id strings by natural numbers.
`Math.random` draws are modelled as explicit parameters.
-/

namespace Trackify

/-- Pallet identifiers: the source generates short random strings; they are
modelled as naturals. -/
abbrev PalletId := Nat

/-- The parsed form of an inventory key: either a storage-cell id
`"B{block}-L{layer}-R{row:02d}-D{depth}"` or an aisle endpoint
`"AISLE-L{layer}-R{row}"`. -/
inductive BinId where
  | cell (block layer row depth : Nat)
  | aisle (layer row : Nat)
deriving DecidableEq

/-- A cell record of the inventory map, as created by `initializeInventory`
and mutated by the store/remove/transfer operations. -/
structure Cell where
  occupied : Bool
  palletId : Option PalletId
  block : Nat
  layer : Nat
  row : Nat
  depth : Nat
deriving DecidableEq

/-- The inventory `Map`, as an insertion-ordered association list. -/
abbrev Inventory := List (BinId × Cell)

/-- `Map.get`: value at the key, if present. -/
def getCell : Inventory → BinId → Option Cell
  | [], _ => none
  | (k, c) :: rest, id => if k = id then some c else getCell rest id

/-- `Map.set`: replace the value at an existing key, else append the new
binding at the end. -/
def setCell : Inventory → BinId → Cell → Inventory
  | [], id, c => [(id, c)]
  | (k, c0) :: rest, id, c =>
      if k = id then (k, c) :: rest else (k, c0) :: setCell rest id c

/-- Key of the storage cell `B{block}-L{layer}-R{row}-D{depth}`. -/
def cellKey (block layer row depth : Nat) : BinId :=
  BinId.cell block layer row depth

/-- `maxDepth` of a row: Block 1 has depths 0-2, Block 2 depths 0-7. -/
def maxDepthOf (block : Nat) : Nat :=
  if block = 1 then 2 else 7

/-- The inner accessibility loop of `findNextEmptySlot`: is some cell at a
depth strictly in front of `depth` (depths `0 .. depth-1`) occupied? -/
def frontIsBlocked (inv : Inventory) (block layer row : Nat) : Nat → Bool
  | 0 => false
  | d + 1 =>
      frontIsBlocked inv block layer row d ||
        (match getCell inv (cellKey block layer row d) with
         | some frontCell => frontCell.occupied
         | none => false)

/-- The scan of `findNextEmptySlot` from depth `d` down to depth 0. -/
def findNextEmptySlotFrom (inv : Inventory) (block layer row : Nat) :
    Nat → Option (BinId × Nat)
  | 0 =>
      match getCell inv (cellKey block layer row 0) with
      | some cell =>
          if !cell.occupied && !frontIsBlocked inv block layer row 0 then
            some (cellKey block layer row 0, 0)
          else none
      | none => none
  | d + 1 =>
      match getCell inv (cellKey block layer row (d + 1)) with
      | some cell =>
          if !cell.occupied && !frontIsBlocked inv block layer row (d + 1) then
            some (cellKey block layer row (d + 1), d + 1)
          else findNextEmptySlotFrom inv block layer row d
      | none => findNextEmptySlotFrom inv block layer row d

/-- `findNextEmptySlot`: scan depths from the blocked end (`maxDepth`) toward
the open end (0) and return the first empty cell all of whose front cells are
also unoccupied. -/
def findNextEmptySlot (inv : Inventory) (block layer row : Nat) :
    Option (BinId × Nat) :=
  findNextEmptySlotFrom inv block layer row (maxDepthOf block)

/-- `findNextOccupiedSlot`: scan depths from the open end (0) toward the
blocked end and return the first occupied cell. -/
def findNextOccupiedSlotFrom (inv : Inventory) (block layer row : Nat) :
    Nat → Nat → Option (BinId × Nat × Option PalletId)
  | d, fuel =>
      match fuel with
      | 0 => none
      | fuel + 1 =>
          match getCell inv (cellKey block layer row d) with
          | some cell =>
              if cell.occupied then some (cellKey block layer row d, d, cell.palletId)
              else findNextOccupiedSlotFrom inv block layer row (d + 1) fuel
          | none => findNextOccupiedSlotFrom inv block layer row (d + 1) fuel

/-- `findNextOccupiedSlot` over depths `0 .. maxDepth`. -/
def findNextOccupiedSlot (inv : Inventory) (block layer row : Nat) :
    Option (BinId × Nat × Option PalletId) :=
  findNextOccupiedSlotFrom inv block layer row 0 (maxDepthOf block + 1)

/-- Depth `d` of the row holds an empty cell that the shuttle can reach:
the cell is present and unoccupied, and every present cell strictly in
front of it is unoccupied. -/
def AccessibleEmpty (inv : Inventory) (block layer row d : Nat) : Prop :=
  ((getCell inv (cellKey block layer row d)).any fun c => !c.occupied) = true ∧
    ∀ e < d, ((getCell inv (cellKey block layer row e)).all fun c => !c.occupied) = true

instance (inv : Inventory) (block layer row d : Nat) :
    Decidable (AccessibleEmpty inv block layer row d) := by
  unfold AccessibleEmpty
  infer_instance

/-- `generatePalletId`: the random-string source of fresh pallet ids is
modelled as a counter supply. -/
def generatePalletId (counter : Nat) : PalletId × Nat :=
  (counter, counter + 1)

/-- `storePallet`: fails when the cell is missing or already occupied; on
success marks the cell occupied with a freshly generated pallet id.
Returns (success, map, pallet-id supply). -/
def storePallet (inv : Inventory) (counter : Nat) (cellId : BinId) :
    Bool × Inventory × Nat :=
  match getCell inv cellId with
  | none => (false, inv, counter)
  | some cell =>
      if cell.occupied then (false, inv, counter)
      else
        let p := generatePalletId counter
        (true, setCell inv cellId { cell with occupied := true, palletId := some p.1 }, p.2)

/-- `removePallet`: returns the cell's pallet id (possibly absent) after
clearing the cell; returns nothing without mutating when the cell is missing
or not occupied. -/
def removePallet (inv : Inventory) (cellId : BinId) :
    Option PalletId × Inventory :=
  match getCell inv cellId with
  | none => (none, inv)
  | some cell =>
      if !cell.occupied then (none, inv)
      else (cell.palletId,
        setCell inv cellId { cell with occupied := false, palletId := none })

/-- The rollback write of `transferPallet`: re-read the source cell and set
it back to occupied with the removed pallet id.  (The missing-key branch is
unreachable: the removal has just succeeded at this key.) -/
def rollbackSource (inv : Inventory) (sourceCellId : BinId)
    (palletId : PalletId) : Inventory :=
  match getCell inv sourceCellId with
  | some c => setCell inv sourceCellId
      { c with occupied := true, palletId := some palletId }
  | none => inv

/-- `transferPallet`: remove from the source, then write the removed pallet
id at the target; when the target is missing or occupied, roll the removal
back. -/
def transferPallet (inv : Inventory) (sourceCellId targetCellId : BinId) :
    Bool × Inventory :=
  let r := removePallet inv sourceCellId
  match r.1 with
  | none => (false, r.2)
  | some palletId =>
      match getCell r.2 targetCellId with
      | none => (false, rollbackSource r.2 sourceCellId palletId)
      | some targetCell =>
          if targetCell.occupied then
            (false, rollbackSource r.2 sourceCellId palletId)
          else
            (true, setCell r.2 targetCellId
              { targetCell with occupied := true, palletId := some palletId })

/-- The `forEach` total counter of `selectTaskType`/`getInventoryStats`. -/
def totalCount (inv : Inventory) : Nat := inv.length

/-- The `forEach` occupied counter of `selectTaskType`/`getInventoryStats`. -/
def occupiedCount (inv : Inventory) : Nat :=
  (inv.filter fun p => p.2.occupied).length

/-- The occupied counter of `getBlockStats`, restricted to one block. -/
def blockOccupiedCount (inv : Inventory) (block : Nat) : Nat :=
  (inv.filter fun p => decide (p.2.block = block) && p.2.occupied).length

/-- The utilization rate computed inside `selectTaskType`: occupied/total,
0 when the map is empty. -/
def utilizationRate (inv : Inventory) : ℚ :=
  if 0 < totalCount inv then (occupiedCount inv : ℚ) / (totalCount inv : ℚ)
  else 0

inductive TaskType where
  | INBOUND
  | OUTBOUND
  | TRANSFER
deriving DecidableEq

/-- `selectTaskType`: pick the task type from the utilization rate and one
uniform draw (the `Math.random()` call of the taken branch). -/
def selectTaskType (inv : Inventory) (rand : ℚ) : TaskType :=
  let u := utilizationRate inv
  if u < 3/10 then
    if rand < 7/10 then .INBOUND
    else if rand < 9/10 then .TRANSFER
    else .OUTBOUND
  else if u > 8/10 then
    if rand < 7/10 then .OUTBOUND
    else if rand < 9/10 then .TRANSFER
    else .INBOUND
  else
    if rand < 4/10 then .INBOUND
    else if rand < 8/10 then .OUTBOUND
    else .TRANSFER

/-- `calculateETA`: 10 seconds per row of distance plus one minute, rounded
up to whole minutes, rendered as a display string. -/
def calculateETA (fromRow toRow : Int) : String :=
  let distance := (toRow - fromRow).natAbs
  let seconds := distance * 10 + 60
  let minutes := Nat.ceil ((seconds : ℚ) / 60)
  "~" ++ toString minutes ++ " min"

/-- Result record of `findOptimalStorageLocation`. -/
structure StorageLocation where
  block : Nat
  layer : Nat
  row : Nat
  cellId : BinId
deriving DecidableEq

/-- Result record of `findOptimalPickLocation`. -/
structure PickLocation where
  block : Nat
  layer : Nat
  row : Nat
  cellId : BinId
  palletId : Option PalletId
deriving DecidableEq

/-- The in-place random shuffle `rows.sort(() => Math.random() - 0.5)` is
modelled as a reordering function applied per (layer, block) search. -/
abbrev RowShuffle := Nat → Nat → List Nat → List Nat

/-- Candidate rows of a block: rows 0-23, Block 1 skipping elevator row 14. -/
def baseRows (block : Nat) : List Nat :=
  if block = 1 then (List.range 24).filter (fun r => decide (r ≠ 14))
  else List.range 24

/-- The layer iteration order of the optimal-location searches. -/
def layersList : List Nat := [1, 2, 3, 4, 5, 6, 7]

/-- `findOptimalStorageLocation`: first accessible empty slot over layers,
then blocks (the preferred block only, when given), then shuffled rows. -/
def findOptimalStorageLocation (inv : Inventory) (preferredBlock : Option Nat)
    (shuffle : RowShuffle) : Option StorageLocation :=
  let blocks := match preferredBlock with | some b => [b] | none => [1, 2]
  layersList.findSome? fun layer =>
    blocks.findSome? fun block =>
      (shuffle layer block (baseRows block)).findSome? fun row =>
        (findNextEmptySlot inv block layer row).map fun slot =>
          { block := block, layer := layer, row := row, cellId := slot.1 }

/-- `findOptimalPickLocation`: first accessible occupied slot over layers,
then blocks (the preferred block only, when given), then shuffled rows. -/
def findOptimalPickLocation (inv : Inventory) (preferredBlock : Option Nat)
    (shuffle : RowShuffle) : Option PickLocation :=
  let blocks := match preferredBlock with | some b => [b] | none => [1, 2]
  layersList.findSome? fun layer =>
    blocks.findSome? fun block =>
      (shuffle layer block (baseRows block)).findSome? fun row =>
        (findNextOccupiedSlot inv block layer row).map fun slot =>
          { block := block, layer := layer, row := row, cellId := slot.1,
            palletId := slot.2.2 }

inductive TaskStatus where
  | pending
  | in_progress
  | completed
  | failed
deriving DecidableEq

/-- A task record as built by the task generator. -/
structure Task where
  id : String
  shuttleId : String
  sourceBin : BinId
  targetBin : BinId
  type : TaskType
  status : TaskStatus
  eta : String
deriving DecidableEq

/-- The random draws consumed by one `generateIntelligentTask` call: the
task-type draw, the row shuffles of the (up to two) pick and storage
searches, and the generated task id. -/
structure RandomDraws where
  typeRand : ℚ
  pickShuffle : RowShuffle
  fallbackPickShuffle : RowShuffle
  storeShuffle : RowShuffle
  fallbackStoreShuffle : RowShuffle
  taskId : String

/-- `generateInboundTask`: target from the optimal storage search, source
the aisle endpoint at the elevator row of the shuttle's layer. -/
def generateInboundTask (d : RandomDraws) (shuttleId : String)
    (shuttleLayer : Nat) (inv : Inventory) : Option Task :=
  match findOptimalStorageLocation inv none d.storeShuffle with
  | none => none
  | some targetLocation =>
      some { id := d.taskId, shuttleId := shuttleId,
             sourceBin := BinId.aisle shuttleLayer 14,
             targetBin := targetLocation.cellId,
             type := .INBOUND, status := .pending,
             eta := calculateETA 14 (targetLocation.row : Int) }

/-- `generateOutboundTask`: source from the optimal pick search, target the
aisle endpoint at the elevator row of the shuttle's layer. -/
def generateOutboundTask (d : RandomDraws) (shuttleId : String)
    (shuttleLayer : Nat) (inv : Inventory) : Option Task :=
  match findOptimalPickLocation inv none d.pickShuffle with
  | none => none
  | some sourceLocation =>
      some { id := d.taskId, shuttleId := shuttleId,
             sourceBin := sourceLocation.cellId,
             targetBin := BinId.aisle shuttleLayer 14,
             type := .OUTBOUND, status := .pending,
             eta := calculateETA (sourceLocation.row : Int) 14 }

/-- `generateTransferTask`: source from Block 2 falling back to Block 1;
target preferentially in the block opposite the source, falling back to any
block. -/
def generateTransferTask (d : RandomDraws) (shuttleId : String)
    (shuttleLayer : Nat) (inv : Inventory) : Option Task :=
  match (findOptimalPickLocation inv (some 2) d.pickShuffle).orElse
      (fun _ => findOptimalPickLocation inv (some 1) d.fallbackPickShuffle) with
  | none => none
  | some sourceLocation =>
      let preferredTargetBlock := if sourceLocation.block = 1 then 2 else 1
      match (findOptimalStorageLocation inv (some preferredTargetBlock)
              d.storeShuffle).orElse
          (fun _ => findOptimalStorageLocation inv none d.fallbackStoreShuffle) with
      | none => none
      | some targetLocation =>
          some { id := d.taskId, shuttleId := shuttleId,
                 sourceBin := sourceLocation.cellId,
                 targetBin := targetLocation.cellId,
                 type := .TRANSFER, status := .pending,
                 eta := calculateETA (sourceLocation.row : Int) (targetLocation.row : Int) }

/-- `generateIntelligentTask`: dispatch on the selected task type. -/
def generateIntelligentTask (d : RandomDraws) (inv : Inventory)
    (shuttleId : String) (shuttleLayer : Nat) : Option Task :=
  match selectTaskType inv d.typeRand with
  | .INBOUND => generateInboundTask d shuttleId shuttleLayer inv
  | .OUTBOUND => generateOutboundTask d shuttleId shuttleLayer inv
  | .TRANSFER => generateTransferTask d shuttleId shuttleLayer inv

/-- `shouldGenerateNewTask`: true when the shuttle has fewer than 2 tasks in
status pending or in_progress. -/
def shouldGenerateNewTask (tasks : List Task) : Bool :=
  (tasks.filter fun t =>
      decide (t.status = TaskStatus.pending ∨ t.status = TaskStatus.in_progress)).length < 2

/-- A shuttle as seen by the dashboard store (its id and its layer `z`). -/
structure Shuttle where
  id : String
  z : Nat
deriving DecidableEq

/-- The slice of the dashboard store touched by the task operations. -/
structure DashboardState where
  shuttles : List Shuttle
  tasks : List Task
  inventory : Inventory
  palletCounter : Nat
deriving DecidableEq

/-- `updateTaskStatus`: overwrite the status of the task(s) with this id. -/
def updateTaskStatus (taskId : String) (newStatus : TaskStatus)
    (tasks : List Task) : List Task :=
  tasks.map fun task =>
    if task.id = taskId then { task with status := newStatus } else task

/-- `startNextTask`: mark the shuttle's first pending task in_progress;
also returns the found task (with its prior status), as in the source. -/
def startNextTask (shuttleId : String) (tasks : List Task) :
    Option Task × List Task :=
  match tasks.find? (fun t =>
      decide (t.shuttleId = shuttleId ∧ t.status = TaskStatus.pending)) with
  | none => (none, tasks)
  | some taskToStart =>
      (some taskToStart,
        tasks.map fun task =>
          if task.id = taskToStart.id then
            { task with status := TaskStatus.in_progress }
          else task)

/-- `addTask`: append a task to the list. -/
def addTask (task : Task) (tasks : List Task) : List Task :=
  tasks ++ [task]

/-- The inventory-mutation switch of `completeNextTask`: store, remove or
transfer according to the task type; the flag reports whether the map was
updated. -/
def applyTaskInventoryOp (s : DashboardState) (taskToComplete : Task) :
    Bool × Inventory × Nat :=
  match taskToComplete.type with
  | .INBOUND =>
      storePallet s.inventory s.palletCounter taskToComplete.targetBin
  | .OUTBOUND =>
      let r := removePallet s.inventory taskToComplete.sourceBin
      (r.1.isSome, r.2, s.palletCounter)
  | .TRANSFER =>
      let r := transferPallet s.inventory taskToComplete.sourceBin
        taskToComplete.targetBin
      (r.1, r.2, s.palletCounter)

/-- `completeNextTask`: complete the shuttle's first in_progress task, apply
the matching inventory mutation (keeping the old map when it fails), and,
when the shuttle's pre-call pending/in_progress count is below 2, enqueue
one generated task (nothing when generation returns nothing). -/
def completeNextTask (d : RandomDraws) (shuttleId : String)
    (s : DashboardState) : DashboardState :=
  match s.tasks.find? (fun t =>
      decide (t.shuttleId = shuttleId ∧ t.status = TaskStatus.in_progress)) with
  | none => s
  | some taskToComplete =>
      let opResult : Bool × Inventory × Nat := applyTaskInventoryOp s taskToComplete
      let inventoryUpdated := opResult.1
      let tasks1 := s.tasks.map fun task =>
        if task.id = taskToComplete.id then
          { task with status := TaskStatus.completed }
        else task
      let inv2 := if inventoryUpdated then opResult.2.1 else s.inventory
      let counter2 := if inventoryUpdated then opResult.2.2 else s.palletCounter
      match s.shuttles.find? (fun sh => decide (sh.id = shuttleId)) with
      | none => { s with tasks := tasks1, inventory := inv2, palletCounter := counter2 }
      | some shuttle =>
          let shuttleTasks := s.tasks.filter fun t => decide (t.shuttleId = shuttleId)
          if shouldGenerateNewTask shuttleTasks then
            match generateIntelligentTask d inv2 shuttleId shuttle.z with
            | some newTask =>
                { s with
                    tasks := tasks1 ++ [newTask],
                    inventory := inv2,
                    palletCounter := counter2 }
            | none =>
                { s with tasks := tasks1, inventory := inv2, palletCounter := counter2 }
          else { s with tasks := tasks1, inventory := inv2, palletCounter := counter2 }

/-- Elevator slice of the 3D simulation context state. -/
structure ElevatorState where
  currentY : ℚ
  targetLayer : Nat
  isMoving : Bool
  hasCargo : Bool
  cargoId : Option Nat
deriving DecidableEq

/-- Conveyor slice of the 3D simulation context state. -/
structure ConveyorState where
  hasCargo : Bool
  cargoPosition : ℚ
deriving DecidableEq

/-- The simulation context state touched by the elevator's cargo claim. -/
structure SimState where
  elevator : ElevatorState
  conveyor : ConveyorState
  cargoCounter : Nat
  lastTargetLayer : Nat
deriving DecidableEq

/-- The layers shuttles operate on; the elevator only delivers to these. -/
def SHUTTLE_ACTIVE_LAYERS : List Nat := [1, 4]

/-- The elevator's cargo-claim guard: conveyor cargo past the 0.4 handoff
threshold, elevator neither loaded nor moving. -/
def elevatorClaimCondition (s : SimState) : Bool :=
  decide (s.conveyor.cargoPosition ≥ 2/5) &&
    !s.elevator.hasCargo && !s.elevator.isMoving

/-- The elevator's cargo-claim step in the `useFrame` handler: round-robin
target layer, fresh cargo id, conveyor cleared. -/
def elevatorClaimCargo (s : SimState) : SimState :=
  if elevatorClaimCondition s then
    let newTargetLayer := if s.lastTargetLayer = 1 then 4 else 1
    { s with
      conveyor := { s.conveyor with
        hasCargo := false,
        cargoPosition := -(1/2 : ℚ) },
      elevator := { s.elevator with
        hasCargo := true,
        cargoId := some (s.cargoCounter + 1),
        targetLayer := newTargetLayer,
        isMoving := true },
      cargoCounter := s.cargoCounter + 1,
      lastTargetLayer := newTargetLayer }
  else s

/-- The initial simulation context state of `useSimulationState`. -/
def initialSimState : SimState :=
  { elevator :=
      { currentY := 0
        targetLayer := 1
        isMoving := false
        hasCargo := false
        cargoId := none },
    conveyor := { hasCargo := true, cargoPosition := -(1/2 : ℚ) },
    cargoCounter := 0,
    lastTargetLayer := 4 }

/-- The branch condition of one iteration of the `findNextEmptySlot` scan. -/
def slotConditionHolds (inv : Inventory) (b l r d : Nat) : Bool :=
  match getCell inv (cellKey b l r d) with
  | some cell => !cell.occupied && !frontIsBlocked inv b l r d
  | none => false

/-- A 3-depth Block 1 row (layer 1, row 0) with the given occupancy by
depth; fixture for the literal spec scenarios (D0 = open end). -/
def rowInv (occs : List Bool) : Inventory :=
  (List.range occs.length).map fun d =>
    (cellKey 1 1 0 d,
      { occupied := occs.getD d false,
        palletId := if occs.getD d false then some d else none,
        block := 1, layer := 1, row := 0, depth := d })

/-- A concrete simulation state in which the elevator can claim cargo. -/
def claimableSimState : SimState :=
  { elevator :=
      { currentY := 0
        targetLayer := 1
        isMoving := false
        hasCargo := false
        cargoId := none },
    conveyor := { hasCargo := true, cargoPosition := (1/2 : ℚ) },
    cargoCounter := 0,
    lastTargetLayer := 4 }

/-- The spec's composition for `transfer`: `removePallet` on the source,
then `storePallet` on the target; when the store step fails the removal is
rolled back, restoring the prior map exactly.  Written from the spec's
words for the refinement comparison with `transferPallet`. -/
def removeThenStore (inv : Inventory) (counter : Nat) (s t : BinId) :
    Bool × Inventory × Nat :=
  match removePallet inv s with
  | (none, inv1) => (false, inv1, counter)
  | (some _, inv1) =>
      match storePallet inv1 counter t with
      | (true, inv2, counter2) => (true, inv2, counter2)
      | (false, _, _) => (false, inv, counter)

/-- Two inventory maps hold exactly the same keys, and cells at the same
key agree on the block, layer, row and depth fields. -/
def SameSkeleton (inv inv' : Inventory) : Prop :=
  ∀ j : BinId, ((getCell inv' j).isSome = (getCell inv j).isSome) ∧
    ∀ c c', getCell inv j = some c → getCell inv' j = some c' →
      c'.block = c.block ∧ c'.layer = c.layer ∧ c'.row = c.row ∧ c'.depth = c.depth

/-- Key of the fixture source cell `B1-L1-R00-D0`. -/
def sKey : BinId := cellKey 1 1 0 0

/-- Key of the fixture target cell `B1-L1-R00-D1`. -/
def tKey : BinId := cellKey 1 1 0 1

/-- Fixture: occupied source (pallet 5) and empty target. -/
def pairInv : Inventory :=
  [(sKey, { occupied := true, palletId := some 5,
            block := 1, layer := 1, row := 0, depth := 0 }),
   (tKey, { occupied := false, palletId := none,
            block := 1, layer := 1, row := 0, depth := 1 })]

/-- Fixture: occupied source (pallet 5) and occupied target (pallet 7). -/
def pairInvOccupiedTarget : Inventory :=
  [(sKey, { occupied := true, palletId := some 5,
            block := 1, layer := 1, row := 0, depth := 0 }),
   (tKey, { occupied := true, palletId := some 7,
            block := 1, layer := 1, row := 0, depth := 1 })]

/-- Fixture: a source cell that is occupied yet carries no pallet id, and
an empty target. -/
def pairInvNoPalletId : Inventory :=
  [(sKey, { occupied := true, palletId := none,
            block := 1, layer := 1, row := 0, depth := 0 }),
   (tKey, { occupied := false, palletId := none,
            block := 1, layer := 1, row := 0, depth := 1 })]

/-- Allowed one-operation status moves: unchanged, pending to any later
status, or in_progress to completed/failed; never out of completed or
failed. -/
def statusStep : TaskStatus → TaskStatus → Prop := fun a b =>
  a = b ∨
    (a = TaskStatus.pending ∧ (b = TaskStatus.in_progress ∨
      b = TaskStatus.completed ∨ b = TaskStatus.failed)) ∨
    (a = TaskStatus.in_progress ∧ (b = TaskStatus.completed ∨ b = TaskStatus.failed))

instance (a b : TaskStatus) : Decidable (statusStep a b) := by
  unfold statusStep
  infer_instance

/-- Every task of the old list persists at its position and its status only
moves forward. -/
def TasksMonotone (old new : List Task) : Prop :=
  old.length ≤ new.length ∧
    ∀ i : Nat, ∀ hi : i < old.length, ∀ hi' : i < new.length,
      statusStep old[i].status new[i].status

/-- The identity row order: rows are visited unshuffled. -/
def idShuffle : RowShuffle := fun _ _ rows => rows

/-- Fixed random draws: type draw 0, unshuffled rows, task id `T-NEW`. -/
def drawsId : RandomDraws :=
  { typeRand := 0,
    pickShuffle := idShuffle,
    fallbackPickShuffle := idShuffle,
    storeShuffle := idShuffle,
    fallbackStoreShuffle := idShuffle,
    taskId := "T-NEW" }

/-- A pending INBOUND task for shuttle S1 targeting `B1-L1-R00-D2`. -/
def demoTask : Task :=
  { id := "T1", shuttleId := "S1",
    sourceBin := BinId.aisle 1 14, targetBin := cellKey 1 1 0 2,
    type := TaskType.INBOUND, status := TaskStatus.pending, eta := "~1 min" }

/-- The task list after add, start and complete of `demoTask` on a state
with no shuttles and an empty inventory. -/
def statusChainTasks : List Task :=
  (completeNextTask drawsId "S1"
    { shuttles := [],
      tasks := (startNextTask "S1" (addTask demoTask [])).2,
      inventory := [],
      palletCounter := 0 }).tasks

/-- The in_progress INBOUND task of the queue-maintenance fixture. -/
def c5Task1 : Task :=
  { id := "T1", shuttleId := "S1",
    sourceBin := BinId.aisle 1 14, targetBin := cellKey 1 1 0 2,
    type := TaskType.INBOUND, status := TaskStatus.in_progress, eta := "~1 min" }

/-- The pending INBOUND task of the queue-maintenance fixture. -/
def c5Task2 : Task :=
  { id := "T2", shuttleId := "S1",
    sourceBin := BinId.aisle 1 14, targetBin := cellKey 1 1 0 1,
    type := TaskType.INBOUND, status := TaskStatus.pending, eta := "~1 min" }

/-- A fully empty 3-depth Block 1 row for the queue-maintenance fixture. -/
def c5Inv : Inventory :=
  [(cellKey 1 1 0 0, { occupied := false, palletId := none,
                       block := 1, layer := 1, row := 0, depth := 0 }),
   (cellKey 1 1 0 1, { occupied := false, palletId := none,
                       block := 1, layer := 1, row := 0, depth := 1 }),
   (cellKey 1 1 0 2, { occupied := false, palletId := none,
                       block := 1, layer := 1, row := 0, depth := 2 })]

/-- Queue-maintenance fixture: one shuttle, one in_progress and one pending
task, the empty row as inventory. -/
def c5State : DashboardState :=
  { shuttles := [{ id := "S1", z := 1 }],
    tasks := [c5Task1, c5Task2],
    inventory := c5Inv,
    palletCounter := 0 }

/-- The fixture inventory after the INBOUND completion stores pallet 0 at
`B1-L1-R00-D2`. -/
def c5InvAfter : Inventory :=
  [(cellKey 1 1 0 0, { occupied := false, palletId := none,
                       block := 1, layer := 1, row := 0, depth := 0 }),
   (cellKey 1 1 0 1, { occupied := false, palletId := none,
                       block := 1, layer := 1, row := 0, depth := 1 }),
   (cellKey 1 1 0 2, { occupied := true, palletId := some 0,
                       block := 1, layer := 1, row := 0, depth := 2 })]

/-- Transfer-generation fixture: Block 1 holds two pallets, Block 2 one
pallet and one empty cell, so Block 1 is the more heavily populated one. -/
def transferCexInv : Inventory :=
  [(cellKey 1 1 0 0, { occupied := true, palletId := some 10,
                       block := 1, layer := 1, row := 0, depth := 0 }),
   (cellKey 1 1 1 0, { occupied := true, palletId := some 11,
                       block := 1, layer := 1, row := 1, depth := 0 }),
   (cellKey 2 1 0 0, { occupied := true, palletId := some 30,
                       block := 2, layer := 1, row := 0, depth := 0 }),
   (cellKey 2 1 1 0, { occupied := false, palletId := none,
                       block := 2, layer := 1, row := 1, depth := 0 })]

/-- The Block 2 pick location found in `transferCexInv`. -/
def pickLocB2 : PickLocation :=
  { block := 2, layer := 1, row := 0, cellId := cellKey 2 1 0 0,
    palletId := some 30 }

/-! ### Association-list facts about the inventory map -/

theorem getCell_setCell_same (inv : Inventory) (id : BinId) (c : Cell) :
    getCell (setCell inv id c) id = some c := by
  induction inv with
  | nil => simp [setCell, getCell]
  | cons p rest ih =>
      obtain ⟨k, c0⟩ := p
      by_cases h : k = id <;> simp [setCell, getCell, h, ih]

theorem getCell_setCell_ne (inv : Inventory) (id id' : BinId) (c : Cell)
    (h : id' ≠ id) : getCell (setCell inv id c) id' = getCell inv id' := by
  induction inv with
  | nil => simp [setCell, getCell, Ne.symm h]
  | cons p rest ih =>
      obtain ⟨k, c0⟩ := p
      by_cases hk : k = id
      · subst hk
        simp [setCell, getCell, Ne.symm h]
      · by_cases hk' : k = id' <;> simp [setCell, getCell, hk, hk', h, ih]

theorem setCell_setCell (inv : Inventory) (id : BinId) (a b : Cell) :
    setCell (setCell inv id a) id b = setCell inv id b := by
  induction inv with
  | nil => simp [setCell]
  | cons p rest ih =>
      obtain ⟨k, c0⟩ := p
      by_cases h : k = id <;> simp [setCell, h, ih]

theorem setCell_getCell_eq (inv : Inventory) (id : BinId) (c : Cell)
    (h : getCell inv id = some c) : setCell inv id c = inv := by
  induction inv with
  | nil => simp [getCell] at h
  | cons p rest ih =>
      obtain ⟨k, c0⟩ := p
      by_cases hk : k = id
      · subst hk
        simp [getCell] at h
        simp [setCell, h]
      · simp [getCell, hk] at h
        simp [setCell, hk, ih h]

/-! ### Correctness of the LIFO empty-slot search (C1) -/

theorem frontIsBlocked_eq_false (inv : Inventory) (b l r d : Nat) :
    frontIsBlocked inv b l r d = false ↔
      ∀ e < d, ((getCell inv (cellKey b l r e)).all fun c => !c.occupied) = true := by
  induction d with
  | zero => simp [frontIsBlocked]
  | succ d ih =>
      cases hg : getCell inv (cellKey b l r d) with
      | none =>
          simp only [frontIsBlocked, hg, Bool.or_false, ih, Nat.forall_lt_succ]
          simp [hg]
      | some c =>
          simp only [frontIsBlocked, hg, Bool.or_eq_false_iff, ih, Nat.forall_lt_succ]
          simp [hg]

theorem accessibleEmpty_iff (inv : Inventory) (b l r d : Nat) :
    AccessibleEmpty inv b l r d ↔
      ∃ c, getCell inv (cellKey b l r d) = some c ∧ c.occupied = false ∧
        frontIsBlocked inv b l r d = false := by
  unfold AccessibleEmpty
  rw [frontIsBlocked_eq_false]
  cases hg : getCell inv (cellKey b l r d) with
  | none => simp
  | some c => simp [hg, and_comm]

theorem slotConditionHolds_iff (inv : Inventory) (b l r d : Nat) :
    slotConditionHolds inv b l r d = true ↔ AccessibleEmpty inv b l r d := by
  rw [accessibleEmpty_iff]
  cases hg : getCell inv (cellKey b l r d) with
  | none => simp [slotConditionHolds, hg]
  | some c => simp [slotConditionHolds, hg]

theorem findNextEmptySlotFrom_zero (inv : Inventory) (b l r : Nat) :
    findNextEmptySlotFrom inv b l r 0 =
      if slotConditionHolds inv b l r 0 then some (cellKey b l r 0, 0)
      else none := by
  rw [findNextEmptySlotFrom]
  cases hg : getCell inv (cellKey b l r 0) with
  | none => simp [slotConditionHolds, hg]
  | some c => simp [slotConditionHolds, hg]

theorem findNextEmptySlotFrom_succ (inv : Inventory) (b l r d : Nat) :
    findNextEmptySlotFrom inv b l r (d + 1) =
      if slotConditionHolds inv b l r (d + 1) then some (cellKey b l r (d + 1), d + 1)
      else findNextEmptySlotFrom inv b l r d := by
  rw [findNextEmptySlotFrom]
  cases hg : getCell inv (cellKey b l r (d + 1)) with
  | none => simp [slotConditionHolds, hg]
  | some c => simp [slotConditionHolds, hg]

theorem findNextEmptySlotFrom_spec (inv : Inventory) (b l r : Nat) (d : Nat) :
    (∀ cid e, findNextEmptySlotFrom inv b l r d = some (cid, e) →
        cid = cellKey b l r e ∧ e ≤ d ∧ AccessibleEmpty inv b l r e ∧
          ∀ e', e' ≤ d → AccessibleEmpty inv b l r e' → e' ≤ e) ∧
      (findNextEmptySlotFrom inv b l r d = none →
        ∀ e, e ≤ d → ¬ AccessibleEmpty inv b l r e) := by
  induction d with
  | zero =>
      rw [findNextEmptySlotFrom_zero]
      by_cases hc : slotConditionHolds inv b l r 0 = true
      · rw [if_pos hc]
        refine ⟨?_, by simp⟩
        intro cid e hres
        obtain ⟨hcid, he⟩ : cellKey b l r 0 = cid ∧ 0 = e := by
          simpa using hres
        subst he
        exact ⟨hcid.symm, le_refl 0, (slotConditionHolds_iff inv b l r 0).1 hc,
          fun e' he' _ => he'⟩
      · rw [if_neg hc]
        refine ⟨by simp, ?_⟩
        intro _ e he
        interval_cases e
        exact fun hacc => hc ((slotConditionHolds_iff inv b l r 0).2 hacc)
  | succ d ih =>
      rw [findNextEmptySlotFrom_succ]
      by_cases hc : slotConditionHolds inv b l r (d + 1) = true
      · rw [if_pos hc]
        refine ⟨?_, by simp⟩
        intro cid e hres
        obtain ⟨hcid, he⟩ : cellKey b l r (d + 1) = cid ∧ d + 1 = e := by
          simpa using hres
        subst he
        exact ⟨hcid.symm, le_refl _, (slotConditionHolds_iff inv b l r (d + 1)).1 hc,
          fun e' he' _ => he'⟩
      · rw [if_neg hc]
        have hnot : ¬ AccessibleEmpty inv b l r (d + 1) :=
          fun hacc => hc ((slotConditionHolds_iff inv b l r (d + 1)).2 hacc)
        constructor
        · intro cid e hres
          obtain ⟨hcid, hle, hacc, hmax⟩ := ih.1 cid e hres
          refine ⟨hcid, hle.trans (Nat.le_succ d), hacc, ?_⟩
          intro e' he' hacc'
          rcases Nat.le_succ_iff_eq_or_le.1 he' with he'' | he''
          · exact absurd (by rwa [he''] at hacc') hnot
          · exact hmax e' he'' hacc'
        · intro hres e he
          rcases Nat.le_succ_iff_eq_or_le.1 he with he'' | he''
          · subst he''
            exact hnot
          · exact ih.2 hres e he''

/-- C1: `findNextEmptySlot` scans depths from the blocked end (`maxDepth`)
toward the open end (depth 0) and returns the deepest empty cell all of
whose strictly shallower cells are also empty; it returns nothing when no
such cell exists; in particular the six literal 3-depth scenarios. -/
theorem findNextEmptySlot_spec (inv : Inventory) (block layer row : Nat) :
    (∀ cid d, findNextEmptySlot inv block layer row = some (cid, d) →
        cid = cellKey block layer row d ∧ d ≤ maxDepthOf block ∧
          AccessibleEmpty inv block layer row d ∧
          ∀ e, e ≤ maxDepthOf block → AccessibleEmpty inv block layer row e → e ≤ d) ∧
      (findNextEmptySlot inv block layer row = none →
        ∀ e, e ≤ maxDepthOf block → ¬ AccessibleEmpty inv block layer row e) ∧
      findNextEmptySlot (rowInv [false, false, false]) 1 1 0 = some (cellKey 1 1 0 2, 2) ∧
      findNextEmptySlot (rowInv [false, false, true]) 1 1 0 = some (cellKey 1 1 0 1, 1) ∧
      findNextEmptySlot (rowInv [false, true, true]) 1 1 0 = some (cellKey 1 1 0 0, 0) ∧
      findNextEmptySlot (rowInv [true, false, false]) 1 1 0 = none ∧
      findNextEmptySlot (rowInv [true, true, false]) 1 1 0 = none ∧
      findNextEmptySlot (rowInv [true, false, true]) 1 1 0 = none :=
  ⟨(findNextEmptySlotFrom_spec inv block layer row (maxDepthOf block)).1,
    (findNextEmptySlotFrom_spec inv block layer row (maxDepthOf block)).2,
    by decide, by decide, by decide, by decide, by decide, by decide⟩

/-- Witness for C1: the returned slot of the `[Empty,Empty,Item]` scenario
is an accessible empty slot. -/
theorem findNextEmptySlot_spec_witness :
    AccessibleEmpty (rowInv [false, false, true]) 1 1 0 1 :=
  ((findNextEmptySlot_spec (rowInv [false, false, true]) 1 1 0).1
    (cellKey 1 1 0 1) 1 (by decide)).2.2.1

/-! ### ETA rendering (C9) -/

theorem ceil_div_sixty (n : Nat) :
    ⌈((n : ℚ) / 60)⌉₊ = (n + 59) / 60 := by
  have hdm := Nat.div_add_mod (n + 59) 60
  have hmlt : (n + 59) % 60 < 60 := Nat.mod_lt _ (by norm_num)
  have hq : (0 : ℚ) < 60 := by norm_num
  apply le_antisymm
  · rw [Nat.ceil_le, div_le_iff₀ hq]
    exact_mod_cast (by omega : n ≤ ((n + 59) / 60) * 60)
  · rcases Nat.eq_zero_or_pos ((n + 59) / 60) with h0 | hpos
    · simp [h0]
    · have hk : ((n + 59) / 60 - 1) < ⌈((n : ℚ) / 60)⌉₊ := by
        rw [Nat.lt_ceil, lt_div_iff₀ hq]
        exact_mod_cast (by omega : ((n + 59) / 60 - 1) * 60 < n)
      omega

/-- C9: `calculateETA` renders `"~{m} min"` with
`m = ceil((|toRow - fromRow| * 10 + 60) / 60)`; row distance 0 gives
`"~1 min"` and row distance 12 gives `"~3 min"`. -/
theorem calculateETA_spec (fromRow toRow : Int) :
    calculateETA fromRow toRow =
      "~" ++ toString (((toRow - fromRow).natAbs * 10 + 60 + 59) / 60) ++ " min" ∧
      (∀ f t : Int, (t - f).natAbs = 0 → calculateETA f t = "~1 min") ∧
      (∀ f t : Int, (t - f).natAbs = 12 → calculateETA f t = "~3 min") := by
  refine ⟨?_, ?_, ?_⟩
  · simp only [calculateETA, ceil_div_sixty]
  · intro f t h
    simp only [calculateETA, h, ceil_div_sixty]
    decide
  · intro f t h
    simp only [calculateETA, h, ceil_div_sixty]
    decide

/-- Witness for C9 at rows 2 and 14 (distance 12). -/
theorem calculateETA_spec_witness : calculateETA 2 14 = "~3 min" :=
  (calculateETA_spec 2 14).2.2 2 14 (by decide)

/-! ### Task-type selection (C4) -/

/-- C4: `selectTaskType` computes utilization occupied/total (0 on an empty
map) and maps the uniform draw to 70/20/10, 10/20/70 or 40/40/20 splits
according to the utilization band. -/
theorem selectTaskType_spec (inv : Inventory) (rand : ℚ)
    (hr0 : 0 ≤ rand) (hr1 : rand < 1) :
    (utilizationRate inv =
        if 0 < totalCount inv then (occupiedCount inv : ℚ) / (totalCount inv : ℚ)
        else 0) ∧
      (utilizationRate inv < 3/10 →
        (selectTaskType inv rand = .INBOUND ↔ rand < 7/10) ∧
          (selectTaskType inv rand = .TRANSFER ↔ 7/10 ≤ rand ∧ rand < 9/10) ∧
          (selectTaskType inv rand = .OUTBOUND ↔ 9/10 ≤ rand)) ∧
      (utilizationRate inv > 8/10 →
        (selectTaskType inv rand = .OUTBOUND ↔ rand < 7/10) ∧
          (selectTaskType inv rand = .TRANSFER ↔ 7/10 ≤ rand ∧ rand < 9/10) ∧
          (selectTaskType inv rand = .INBOUND ↔ 9/10 ≤ rand)) ∧
      (3/10 ≤ utilizationRate inv → utilizationRate inv ≤ 8/10 →
        (selectTaskType inv rand = .INBOUND ↔ rand < 4/10) ∧
          (selectTaskType inv rand = .OUTBOUND ↔ 4/10 ≤ rand ∧ rand < 8/10) ∧
          (selectTaskType inv rand = .TRANSFER ↔ 8/10 ≤ rand)) := by
  refine ⟨rfl, ?_, ?_, ?_⟩
  · intro hu
    have hsel : selectTaskType inv rand =
        (if rand < 7/10 then TaskType.INBOUND
         else if rand < 9/10 then TaskType.TRANSFER else TaskType.OUTBOUND) := by
      unfold selectTaskType
      rw [if_pos hu]
    rcases lt_or_le rand (7/10) with h7 | h7
    · have hres : selectTaskType inv rand = TaskType.INBOUND := by
        rw [hsel, if_pos h7]
      exact ⟨by simp [hres, h7], by simp [hres, not_le.mpr h7],
        by simp [hres, not_le.mpr (h7.trans (by norm_num : (7:ℚ)/10 < 9/10))]⟩
    · rcases lt_or_le rand (9/10) with h9 | h9
      · have hres : selectTaskType inv rand = TaskType.TRANSFER := by
          rw [hsel, if_neg (not_lt.mpr h7), if_pos h9]
        exact ⟨by simp [hres, not_lt.mpr h7], by simp [hres, h7, h9],
          by simp [hres, not_le.mpr h9]⟩
      · have hres : selectTaskType inv rand = TaskType.OUTBOUND := by
          rw [hsel, if_neg (not_lt.mpr h7), if_neg (not_lt.mpr h9)]
        exact ⟨by simp [hres, not_lt.mpr ((by norm_num : (7:ℚ)/10 ≤ 9/10).trans h9)],
          by simp [hres, not_lt.mpr h9], by simp [hres, h9]⟩
  · intro hu
    have hsel : selectTaskType inv rand =
        (if rand < 7/10 then TaskType.OUTBOUND
         else if rand < 9/10 then TaskType.TRANSFER else TaskType.INBOUND) := by
      unfold selectTaskType
      rw [if_neg (not_lt.mpr (by linarith)), if_pos hu]
    rcases lt_or_le rand (7/10) with h7 | h7
    · have hres : selectTaskType inv rand = TaskType.OUTBOUND := by
        rw [hsel, if_pos h7]
      exact ⟨by simp [hres, h7], by simp [hres, not_le.mpr h7],
        by simp [hres, not_le.mpr (h7.trans (by norm_num : (7:ℚ)/10 < 9/10))]⟩
    · rcases lt_or_le rand (9/10) with h9 | h9
      · have hres : selectTaskType inv rand = TaskType.TRANSFER := by
          rw [hsel, if_neg (not_lt.mpr h7), if_pos h9]
        exact ⟨by simp [hres, not_lt.mpr h7], by simp [hres, h7, h9],
          by simp [hres, not_le.mpr h9]⟩
      · have hres : selectTaskType inv rand = TaskType.INBOUND := by
          rw [hsel, if_neg (not_lt.mpr h7), if_neg (not_lt.mpr h9)]
        exact ⟨by simp [hres, not_lt.mpr ((by norm_num : (7:ℚ)/10 ≤ 9/10).trans h9)],
          by simp [hres, not_lt.mpr h9], by simp [hres, h9]⟩
  · intro h3 h8
    have hsel : selectTaskType inv rand =
        (if rand < 4/10 then TaskType.INBOUND
         else if rand < 8/10 then TaskType.OUTBOUND else TaskType.TRANSFER) := by
      unfold selectTaskType
      rw [if_neg (not_lt.mpr h3), if_neg (not_lt.mpr h8)]
    rcases lt_or_le rand (4/10) with h4 | h4
    · have hres : selectTaskType inv rand = TaskType.INBOUND := by
        rw [hsel, if_pos h4]
      exact ⟨by simp [hres, h4], by simp [hres, not_le.mpr h4],
        by simp [hres, not_le.mpr (h4.trans (by norm_num : (4:ℚ)/10 < 8/10))]⟩
    · rcases lt_or_le rand (8/10) with h8' | h8'
      · have hres : selectTaskType inv rand = TaskType.OUTBOUND := by
          rw [hsel, if_neg (not_lt.mpr h4), if_pos h8']
        exact ⟨by simp [hres, not_lt.mpr h4], by simp [hres, h4, h8'],
          by simp [hres, not_le.mpr h8']⟩
      · have hres : selectTaskType inv rand = TaskType.TRANSFER := by
          rw [hsel, if_neg (not_lt.mpr h4), if_neg (not_lt.mpr h8')]
        exact ⟨by simp [hres, not_lt.mpr ((by norm_num : (4:ℚ)/10 ≤ 8/10).trans h8')],
          by simp [hres, not_lt.mpr h8'], by simp [hres, h8']⟩

/-- Witness for C4: at utilization 0 and draw 0 the selected type is
INBOUND. -/
theorem selectTaskType_spec_witness :
    selectTaskType ([] : Inventory) 0 = TaskType.INBOUND :=
  (((selectTaskType_spec ([] : Inventory) 0 (by norm_num) (by norm_num)).2.1
    (by norm_num [utilizationRate, totalCount])).1).mpr (by norm_num)

/-! ### Elevator round-robin cargo claim (C8) -/

/-- C8: a cargo claim sets the target layer to the active layer other than
`lastTargetLayer` (4 when it is 1, else 1), records it as the new
`lastTargetLayer` (so consecutive deliveries alternate between the two
active layers), and assigns cargo id `cargoCounter + 1`. -/
theorem elevatorClaimCargo_spec (s : SimState)
    (h : elevatorClaimCondition s = true) :
    (elevatorClaimCargo s).elevator.targetLayer =
        (if s.lastTargetLayer = 1 then 4 else 1) ∧
      (elevatorClaimCargo s).lastTargetLayer =
        (elevatorClaimCargo s).elevator.targetLayer ∧
      (elevatorClaimCargo s).elevator.targetLayer ≠ s.lastTargetLayer ∧
      (s.lastTargetLayer ∈ SHUTTLE_ACTIVE_LAYERS →
        (elevatorClaimCargo s).elevator.targetLayer ∈ SHUTTLE_ACTIVE_LAYERS) ∧
      (elevatorClaimCargo s).elevator.cargoId = some (s.cargoCounter + 1) ∧
      (elevatorClaimCargo s).cargoCounter = s.cargoCounter + 1 ∧
      initialSimState.lastTargetLayer ∈ SHUTTLE_ACTIVE_LAYERS := by
  unfold elevatorClaimCargo
  rw [if_pos h]
  by_cases h1 : s.lastTargetLayer = 1
  · simp [h1, SHUTTLE_ACTIVE_LAYERS, initialSimState]
  · refine ⟨by simp [h1], by simp [h1], fun hc => h1 ?_,
      fun _ => by simp [h1, SHUTTLE_ACTIVE_LAYERS], by simp [h1], by simp [h1],
      by simp [SHUTTLE_ACTIVE_LAYERS, initialSimState]⟩
    simpa [h1] using hc.symm

/-- Witness for C8 at a concrete claimable state. -/
theorem elevatorClaimCargo_spec_witness :
    (elevatorClaimCargo claimableSimState).elevator.targetLayer ≠ 4 :=
  (elevatorClaimCargo_spec claimableSimState
    (by norm_num [elevatorClaimCondition, claimableSimState])).2.2.1

/-! ### Inventory mutators: rollback, frame and refinement (C2, C6, C10) -/

theorem rollback_restores (inv : Inventory) (s : BinId) (c : Cell)
    (hg : getCell inv s = some c) (hocc : c.occupied = true) (p : PalletId)
    (hp : c.palletId = some p) :
    rollbackSource (setCell inv s { c with occupied := false, palletId := none }) s p = inv := by
  obtain ⟨occ, pid, blk, lay, row, dep⟩ := c
  cases hocc
  cases hp
  unfold rollbackSource
  rw [getCell_setCell_same]
  exact (setCell_setCell inv s _ _).trans (setCell_getCell_eq inv s _ hg)

theorem transferPallet_src_not_removable (inv : Inventory) (s t : BinId)
    (h : ((getCell inv s).all fun c => !c.occupied) = true) :
    transferPallet inv s t = (false, inv) := by
  cases hg : getCell inv s with
  | none => simp [transferPallet, removePallet, hg]
  | some c =>
      rw [hg] at h
      simp only [Option.all_some] at h
      simp [transferPallet, removePallet, hg, h]

theorem transferPallet_no_palletId (inv : Inventory) (s t : BinId) (c : Cell)
    (hg : getCell inv s = some c) (hocc : c.occupied = true)
    (hp : c.palletId = none) :
    transferPallet inv s t =
      (false, setCell inv s { c with occupied := false, palletId := none }) := by
  simp [transferPallet, removePallet, hg, hocc, hp]

theorem transferPallet_of_removable (inv : Inventory) (s t : BinId) (c : Cell)
    (hg : getCell inv s = some c) (hocc : c.occupied = true) (p : PalletId)
    (hp : c.palletId = some p) :
    transferPallet inv s t =
      match getCell (setCell inv s { c with occupied := false, palletId := none }) t with
      | none => (false, inv)
      | some tc =>
          if tc.occupied then (false, inv)
          else (true,
            setCell (setCell inv s { c with occupied := false, palletId := none }) t
              { tc with occupied := true, palletId := some p }) := by
  have hroll := rollback_restores inv s c hg hocc p hp
  simp only [transferPallet, removePallet, hg, hocc, hp, Bool.not_true,
    Bool.false_eq_true, if_false]
  cases hgt : getCell (setCell inv s { c with occupied := false, palletId := none }) t with
  | none => simp [hgt, hroll]
  | some tc =>
      by_cases htc : tc.occupied = true
      · simp [hgt, htc, hroll]
      · simp [hgt, htc]

theorem sameSkeleton_refl (inv : Inventory) : SameSkeleton inv inv := by
  intro j
  refine ⟨rfl, ?_⟩
  intro c c' h1 h2
  rw [h1] at h2
  cases h2
  exact ⟨rfl, rfl, rfl, rfl⟩

theorem sameSkeleton_trans {inv1 inv2 inv3 : Inventory}
    (h12 : SameSkeleton inv1 inv2) (h23 : SameSkeleton inv2 inv3) :
    SameSkeleton inv1 inv3 := by
  intro j
  obtain ⟨hs12, hc12⟩ := h12 j
  obtain ⟨hs23, hc23⟩ := h23 j
  refine ⟨hs23.trans hs12, ?_⟩
  intro c c' h1 h3
  have hsome : (getCell inv2 j).isSome = true := by
    rw [hs12, h1]
    rfl
  obtain ⟨c2, h2⟩ := Option.isSome_iff_exists.1 hsome
  obtain ⟨hb, hl, hr, hd⟩ := hc12 c c2 h1 h2
  obtain ⟨hb', hl', hr', hd'⟩ := hc23 c2 c' h2 h3
  exact ⟨hb'.trans hb, hl'.trans hl, hr'.trans hr, hd'.trans hd⟩

theorem sameSkeleton_setCell (inv : Inventory) (id : BinId) (c c'' : Cell)
    (hg : getCell inv id = some c)
    (hb : c''.block = c.block) (hl : c''.layer = c.layer)
    (hr : c''.row = c.row) (hd : c''.depth = c.depth) :
    SameSkeleton inv (setCell inv id c'') := by
  intro j
  by_cases hj : j = id
  · subst hj
    refine ⟨by rw [getCell_setCell_same, hg]; rfl, ?_⟩
    intro c0 c' h0 h'
    rw [hg] at h0
    cases h0
    rw [getCell_setCell_same] at h'
    cases h'
    exact ⟨hb, hl, hr, hd⟩
  · refine ⟨by rw [getCell_setCell_ne inv id j c'' hj], ?_⟩
    intro c0 c' h0 h'
    rw [getCell_setCell_ne inv id j c'' hj, h0] at h'
    cases h'
    exact ⟨rfl, rfl, rfl, rfl⟩

/-- C2: on a map whose source cell carries a pallet id whenever it is
occupied (the spec's Cell data model), whenever `transferPallet` returns
false the map at exit is exactly the map before the call. -/
theorem transferPallet_atomic_on_failure (inv : Inventory) (s t : BinId)
    (hwf : ((getCell inv s).all fun c => !c.occupied || c.palletId.isSome) = true)
    (hfail : (transferPallet inv s t).1 = false) :
    (transferPallet inv s t).2 = inv := by
  cases hg : getCell inv s with
  | none => simp [transferPallet, removePallet, hg]
  | some c =>
      by_cases hocc : c.occupied = true
      · have hps : c.palletId.isSome = true := by
          rw [hg] at hwf
          simpa [hocc] using hwf
        obtain ⟨p, hp⟩ := Option.isSome_iff_exists.1 hps
        rw [transferPallet_of_removable inv s t c hg hocc p hp] at hfail ⊢
        cases hgt : getCell (setCell inv s { c with occupied := false, palletId := none }) t with
        | none => simp [hgt]
        | some tc =>
            by_cases htc : tc.occupied = true
            · simp [hgt, htc]
            · rw [hgt] at hfail
              simp [htc] at hfail
      · rw [Bool.not_eq_true] at hocc
        rw [transferPallet_src_not_removable inv s t (by simp [hg, hocc])]

/-- Witness for C2: transfer onto an occupied target fails and leaves the
fixture map untouched. -/
theorem transferPallet_atomic_on_failure_witness :
    (transferPallet pairInvOccupiedTarget sKey tKey).2 = pairInvOccupiedTarget :=
  transferPallet_atomic_on_failure pairInvOccupiedTarget sKey tKey
    (by decide) (by decide)

/-- C2 counterexample to the unrestricted claim: on an occupied source cell
carrying no pallet id, `transferPallet` returns false yet exits with the
source cell cleared. -/
theorem transferPallet_atomic_on_failure_cex :
    (transferPallet pairInvNoPalletId sKey tKey).1 = false ∧
      (transferPallet pairInvNoPalletId sKey tKey).2 ≠ pairInvNoPalletId := by
  decide

/-- C6 (amended): `transferPallet` returns the same success flag as the
spec's remove-then-store composition and the same map except possibly at
the target cell, whose occupancy agrees; there `transferPallet` keeps the
pallet id removed from the source while the composition mints a fresh
one. -/
theorem transferPallet_vs_removeThenStore (inv : Inventory) (counter : Nat)
    (s t : BinId) :
    (transferPallet inv s t).1 = (removeThenStore inv counter s t).1 ∧
      (∀ j, j ≠ t →
        getCell (transferPallet inv s t).2 j =
          getCell (removeThenStore inv counter s t).2.1 j) ∧
      (∀ j, (getCell (transferPallet inv s t).2 j).map Cell.occupied =
        (getCell (removeThenStore inv counter s t).2.1 j).map Cell.occupied) ∧
      ((transferPallet inv s t).1 = true →
        ∃ c tc tc', getCell inv s = some c ∧
          getCell (transferPallet inv s t).2 t = some tc ∧
          getCell (removeThenStore inv counter s t).2.1 t = some tc' ∧
          tc.palletId = c.palletId ∧ tc'.palletId = some counter) := by
  cases hg : getCell inv s with
  | none =>
      have h1 : transferPallet inv s t = (false, inv) := by
        simp [transferPallet, removePallet, hg]
      have h2 : removeThenStore inv counter s t = (false, inv, counter) := by
        simp [removeThenStore, removePallet, hg]
      rw [h1, h2]
      exact ⟨rfl, fun j _ => rfl, fun j => rfl, by simp⟩
  | some c =>
      by_cases hocc : c.occupied = true
      · cases hp : c.palletId with
        | none =>
            have h1 : transferPallet inv s t =
                (false, setCell inv s { c with occupied := false, palletId := none }) :=
              transferPallet_no_palletId inv s t c hg hocc hp
            have h2 : removeThenStore inv counter s t =
                (false, setCell inv s { c with occupied := false, palletId := none },
                  counter) := by
              simp [removeThenStore, removePallet, hg, hocc, hp]
            rw [h1, h2]
            exact ⟨rfl, fun j _ => rfl, fun j => rfl, by simp⟩
        | some p =>
            have htrans := transferPallet_of_removable inv s t c hg hocc p hp
            have hremove : removePallet inv s =
                (some p, setCell inv s { c with occupied := false, palletId := none }) := by
              simp [removePallet, hg, hocc, hp]
            cases hgt : getCell
                (setCell inv s { c with occupied := false, palletId := none }) t with
            | none =>
                have h1 : transferPallet inv s t = (false, inv) := by
                  rw [htrans, hgt]
                have h2 : removeThenStore inv counter s t = (false, inv, counter) := by
                  simp [removeThenStore, hremove, storePallet, hgt]
                rw [h1, h2]
                exact ⟨rfl, fun j _ => rfl, fun j => rfl, by simp⟩
            | some tc =>
                by_cases htc : tc.occupied = true
                · have h1 : transferPallet inv s t = (false, inv) := by
                    rw [htrans, hgt]
                    simp [htc]
                  have h2 : removeThenStore inv counter s t = (false, inv, counter) := by
                    simp [removeThenStore, hremove, storePallet, hgt, htc]
                  rw [h1, h2]
                  exact ⟨rfl, fun j _ => rfl, fun j => rfl, by simp⟩
                · have h1 : transferPallet inv s t =
                      (true, setCell (setCell inv s { c with occupied := false, palletId := none }) t
                        { tc with occupied := true, palletId := some p }) := by
                    rw [htrans, hgt]
                    simp [htc]
                  have h2 : removeThenStore inv counter s t =
                      (true, setCell (setCell inv s { c with occupied := false, palletId := none }) t
                        { tc with occupied := true, palletId := some counter }, counter + 1) := by
                    simp [removeThenStore, hremove, storePallet, hgt, htc, generatePalletId]
                  rw [h1, h2]
                  refine ⟨rfl, ?_, ?_, ?_⟩
                  · intro j hj
                    rw [getCell_setCell_ne _ _ _ _ hj, getCell_setCell_ne _ _ _ _ hj]
                  · intro j
                    by_cases hj : j = t
                    · subst hj
                      rw [getCell_setCell_same, getCell_setCell_same]
                      rfl
                    · rw [getCell_setCell_ne _ _ _ _ hj, getCell_setCell_ne _ _ _ _ hj]
                  · intro _
                    exact ⟨c, _, _, rfl, getCell_setCell_same _ _ _,
                      getCell_setCell_same _ _ _, by simp [hp], rfl⟩
      · rw [Bool.not_eq_true] at hocc
        have h1 : transferPallet inv s t = (false, inv) :=
          transferPallet_src_not_removable inv s t (by simp [hg, hocc])
        have h2 : removeThenStore inv counter s t = (false, inv, counter) := by
          simp [removeThenStore, removePallet, hg, hocc]
        rw [h1, h2]
        exact ⟨rfl, fun j _ => rfl, fun j => rfl, by simp⟩

/-- Witness for C6: the success flags of `transferPallet` and the spec
composition agree on the fixture. -/
theorem transferPallet_vs_removeThenStore_witness :
    (transferPallet pairInv sKey tKey).1 =
      (removeThenStore pairInv 100 sKey tKey).1 :=
  (transferPallet_vs_removeThenStore pairInv 100 sKey tKey).1

/-- C6 counterexample to the claim as stated: after a successful transfer
the two final maps differ, and `transferPallet` keeps the source's pallet
id at the target rather than a freshly generated one. -/
theorem transferPallet_vs_removeThenStore_cex :
    (transferPallet pairInv sKey tKey).2 ≠
        (removeThenStore pairInv 100 sKey tKey).2.1 ∧
      (getCell (transferPallet pairInv sKey tKey).2 tKey).map Cell.palletId =
        some (some 5) := by
  decide

/-- C10: the inventory mutators preserve the key set and every cell's
block, layer, row and depth; cells other than the operated-on ones are
unchanged; a failed `storePallet` leaves the map unchanged, and a failed
`removePallet` leaves the map unchanged when the cell carries a pallet id
whenever occupied (the spec's Cell data model). -/
theorem inventory_mutators_frame (inv : Inventory) (counter : Nat) (id s t : BinId)
    (hwf : ((getCell inv id).all fun c => !c.occupied || c.palletId.isSome) = true) :
    (∀ j, j ≠ id → getCell (storePallet inv counter id).2.1 j = getCell inv j) ∧
      SameSkeleton inv (storePallet inv counter id).2.1 ∧
      (∀ j, j ≠ id → getCell (removePallet inv id).2 j = getCell inv j) ∧
      SameSkeleton inv (removePallet inv id).2 ∧
      (∀ j, j ≠ s → j ≠ t → getCell (transferPallet inv s t).2 j = getCell inv j) ∧
      SameSkeleton inv (transferPallet inv s t).2 ∧
      ((storePallet inv counter id).1 = false → (storePallet inv counter id).2.1 = inv) ∧
      ((removePallet inv id).1 = none → (removePallet inv id).2 = inv) := by
  have hstore : (∀ j, j ≠ id → getCell (storePallet inv counter id).2.1 j = getCell inv j) ∧
      SameSkeleton inv (storePallet inv counter id).2.1 ∧
      ((storePallet inv counter id).1 = false → (storePallet inv counter id).2.1 = inv) := by
    cases hg : getCell inv id with
    | none =>
        have he : storePallet inv counter id = (false, inv, counter) := by
          simp [storePallet, hg]
        rw [he]
        exact ⟨fun j _ => rfl, sameSkeleton_refl inv, fun _ => rfl⟩
    | some c =>
        by_cases hocc : c.occupied = true
        · have he : storePallet inv counter id = (false, inv, counter) := by
            simp [storePallet, hg, hocc]
          rw [he]
          exact ⟨fun j _ => rfl, sameSkeleton_refl inv, fun _ => rfl⟩
        · have he : storePallet inv counter id =
              (true, setCell inv id { c with occupied := true, palletId := some counter },
                counter + 1) := by
            simp [storePallet, hg, hocc, generatePalletId]
          rw [he]
          refine ⟨?_, ?_, ?_⟩
          · intro j hj
            exact getCell_setCell_ne inv id j _ hj
          · exact sameSkeleton_setCell inv id c _ hg rfl rfl rfl rfl
          · intro h
            simp at h
  have hremoveA : (∀ j, j ≠ id → getCell (removePallet inv id).2 j = getCell inv j) ∧
      SameSkeleton inv (removePallet inv id).2 ∧
      ((removePallet inv id).1 = none → (removePallet inv id).2 = inv) := by
    cases hg : getCell inv id with
    | none =>
        have he : removePallet inv id = (none, inv) := by
          simp [removePallet, hg]
        rw [he]
        exact ⟨fun j _ => rfl, sameSkeleton_refl inv, fun _ => rfl⟩
    | some c =>
        by_cases hocc : c.occupied = true
        · have hps : c.palletId.isSome = true := by
            rw [hg] at hwf
            simpa [hocc] using hwf
          obtain ⟨p, hp⟩ := Option.isSome_iff_exists.1 hps
          have he : removePallet inv id =
              (c.palletId, setCell inv id { c with occupied := false, palletId := none }) := by
            simp [removePallet, hg, hocc]
          rw [he]
          refine ⟨?_, ?_, ?_⟩
          · intro j hj
            exact getCell_setCell_ne inv id j _ hj
          · exact sameSkeleton_setCell inv id c _ hg rfl rfl rfl rfl
          · intro h
            rw [hp] at h
            simp at h
        · rw [Bool.not_eq_true] at hocc
          have he : removePallet inv id = (none, inv) := by
            simp [removePallet, hg, hocc]
          rw [he]
          exact ⟨fun j _ => rfl, sameSkeleton_refl inv, fun _ => rfl⟩
  have htransfer : (∀ j, j ≠ s → j ≠ t → getCell (transferPallet inv s t).2 j = getCell inv j) ∧
      SameSkeleton inv (transferPallet inv s t).2 := by
    cases hg : getCell inv s with
    | none =>
        have h1 : transferPallet inv s t = (false, inv) := by
          simp [transferPallet, removePallet, hg]
        rw [h1]
        exact ⟨fun j _ _ => rfl, sameSkeleton_refl inv⟩
    | some c =>
        by_cases hocc : c.occupied = true
        · cases hp : c.palletId with
          | none =>
              rw [transferPallet_no_palletId inv s t c hg hocc hp]
              refine ⟨?_, ?_⟩
              · intro j hjs _
                exact getCell_setCell_ne inv s j _ hjs
              · exact sameSkeleton_setCell inv s c _ hg rfl rfl rfl rfl
          | some p =>
              have htrans := transferPallet_of_removable inv s t c hg hocc p hp
              cases hgt : getCell (setCell inv s { c with occupied := false, palletId := none }) t with
              | none =>
                  have h1 : transferPallet inv s t = (false, inv) := by
                    rw [htrans, hgt]
                  rw [h1]
                  exact ⟨fun j _ _ => rfl, sameSkeleton_refl inv⟩
              | some tc =>
                  by_cases htc : tc.occupied = true
                  · have h1 : transferPallet inv s t = (false, inv) := by
                      rw [htrans, hgt]
                      simp [htc]
                    rw [h1]
                    exact ⟨fun j _ _ => rfl, sameSkeleton_refl inv⟩
                  · have h1 : transferPallet inv s t =
                        (true, setCell
                          (setCell inv s { c with occupied := false, palletId := none }) t
                          { tc with occupied := true, palletId := some p }) := by
                      rw [htrans, hgt]
                      simp [htc]
                    rw [h1]
                    refine ⟨?_, ?_⟩
                    · intro j hjs hjt
                      rw [getCell_setCell_ne _ _ _ _ hjt, getCell_setCell_ne _ _ _ _ hjs]
                    · refine sameSkeleton_trans
                        (sameSkeleton_setCell inv s c
                          { c with occupied := false, palletId := none } hg
                          rfl rfl rfl rfl) ?_
                      exact sameSkeleton_setCell _ t tc
                        { tc with occupied := true, palletId := some p } hgt
                        rfl rfl rfl rfl
        · rw [Bool.not_eq_true] at hocc
          rw [transferPallet_src_not_removable inv s t (by simp [hg, hocc])]
          exact ⟨fun j _ _ => rfl, sameSkeleton_refl inv⟩
  exact ⟨hstore.1, hstore.2.1, hremoveA.1, hremoveA.2.1, htransfer.1, htransfer.2,
    hstore.2.2, hremoveA.2.2⟩

/-- Witness for C10: a failed store (occupied target) leaves the fixture
map unchanged. -/
theorem inventory_mutators_frame_witness :
    (storePallet pairInvOccupiedTarget 0 tKey).2.1 = pairInvOccupiedTarget :=
  (inventory_mutators_frame pairInvOccupiedTarget 0 tKey sKey tKey
    (by decide)).2.2.2.2.2.2.1 (by decide)

/-- C10 counterexample to the unrestricted claim: `removePallet` on an
occupied cell with no pallet id returns nothing (its failure signal) yet
mutates the map. -/
theorem inventory_mutators_frame_cex :
    (removePallet pairInvNoPalletId sKey).1 = none ∧
      (removePallet pairInvNoPalletId sKey).2 ≠ pairInvNoPalletId := by
  decide

/-! ### Transfer-task generation block preference (C7) -/

theorem findOptimalPickLocation_block (inv : Inventory) (b : Nat)
    (sh : RowShuffle) (loc : PickLocation)
    (h : findOptimalPickLocation inv (some b) sh = some loc) :
    loc.block = b := by
  simp only [findOptimalPickLocation] at h
  obtain ⟨layer, _, h1⟩ := List.exists_of_findSome?_eq_some h
  obtain ⟨block, hbmem, h2⟩ := List.exists_of_findSome?_eq_some h1
  obtain ⟨row, _, h3⟩ := List.exists_of_findSome?_eq_some h2
  rw [Option.map_eq_some'] at h3
  obtain ⟨slot, _, hloc⟩ := h3
  have hb : block = b := by simpa using hbmem
  subst hb
  rw [← hloc]

theorem findOptimalStorageLocation_block (inv : Inventory) (b : Nat)
    (sh : RowShuffle) (loc : StorageLocation)
    (h : findOptimalStorageLocation inv (some b) sh = some loc) :
    loc.block = b := by
  simp only [findOptimalStorageLocation] at h
  obtain ⟨layer, _, h1⟩ := List.exists_of_findSome?_eq_some h
  obtain ⟨block, hbmem, h2⟩ := List.exists_of_findSome?_eq_some h1
  obtain ⟨row, _, h3⟩ := List.exists_of_findSome?_eq_some h2
  rw [Option.map_eq_some'] at h3
  obtain ⟨slot, _, hloc⟩ := h3
  have hb : block = b := by simpa using hbmem
  subst hb
  rw [← hloc]

/-- C7 (amended): `generateTransferTask` draws its source from Block 2
when Block 2 yields a pick location (not from the more heavily populated
block), falling back to Block 1; its target comes preferentially from the
block opposite the source, falling back to any block; it returns nothing
when no source or no target can be found. -/
theorem generateTransferTask_spec (d : RandomDraws) (shuttleId : String)
    (shuttleLayer : Nat) (inv : Inventory) :
    (findOptimalPickLocation inv (some 2) d.pickShuffle = none →
      findOptimalPickLocation inv (some 1) d.fallbackPickShuffle = none →
      generateTransferTask d shuttleId shuttleLayer inv = none) ∧
      (∀ src, (findOptimalPickLocation inv (some 2) d.pickShuffle).orElse
          (fun _ => findOptimalPickLocation inv (some 1) d.fallbackPickShuffle) =
            some src →
        findOptimalStorageLocation inv (some (if src.block = 1 then 2 else 1))
            d.storeShuffle = none →
        findOptimalStorageLocation inv none d.fallbackStoreShuffle = none →
        generateTransferTask d shuttleId shuttleLayer inv = none) ∧
      (∀ task, generateTransferTask d shuttleId shuttleLayer inv = some task →
        ∃ src, (findOptimalPickLocation inv (some 2) d.pickShuffle).orElse
            (fun _ => findOptimalPickLocation inv (some 1) d.fallbackPickShuffle) =
              some src ∧
          (src.block = 2 ∨
            (findOptimalPickLocation inv (some 2) d.pickShuffle = none ∧
              src.block = 1)) ∧
          task.sourceBin = src.cellId ∧
          ∃ tgt, task.targetBin = tgt.cellId ∧
            ((findOptimalStorageLocation inv (some (if src.block = 1 then 2 else 1))
                d.storeShuffle = some tgt ∧
                tgt.block = (if src.block = 1 then 2 else 1)) ∨
              (findOptimalStorageLocation inv (some (if src.block = 1 then 2 else 1))
                d.storeShuffle = none ∧
                findOptimalStorageLocation inv none d.fallbackStoreShuffle =
                  some tgt))) := by
  refine ⟨?_, ?_, ?_⟩
  · intro h2 h1
    simp [generateTransferTask, h2, h1, Option.orElse]
  · intro src hsrc hpref hany
    unfold generateTransferTask
    rw [hsrc]
    simp only [hpref, hany]
    rfl
  · intro task htask
    unfold generateTransferTask at htask
    cases hsrc : (findOptimalPickLocation inv (some 2) d.pickShuffle).orElse
        (fun _ => findOptimalPickLocation inv (some 1) d.fallbackPickShuffle) with
    | none =>
        rw [hsrc] at htask
        exact absurd htask (by simp)
    | some src =>
        rw [hsrc] at htask
        refine ⟨src, rfl, ?_, ?_⟩
        · cases h2 : findOptimalPickLocation inv (some 2) d.pickShuffle with
          | some s2 =>
              rw [h2] at hsrc
              have heq : some s2 = some src := hsrc
              cases heq
              exact Or.inl (findOptimalPickLocation_block inv 2 d.pickShuffle _ h2)
          | none =>
              rw [h2] at hsrc
              have heq : findOptimalPickLocation inv (some 1) d.fallbackPickShuffle =
                  some src := hsrc
              exact Or.inr ⟨rfl, findOptimalPickLocation_block inv 1
                d.fallbackPickShuffle src heq⟩
        · cases hpref : findOptimalStorageLocation inv
              (some (if src.block = 1 then 2 else 1)) d.storeShuffle with
          | some tgt =>
              simp only [hpref] at htask
              obtain ⟨hbin, htgt⟩ : task.sourceBin = src.cellId ∧
                  task.targetBin = tgt.cellId := by
                cases htask
                exact ⟨rfl, rfl⟩
              exact ⟨hbin, tgt, htgt, Or.inl ⟨rfl,
                findOptimalStorageLocation_block inv _ d.storeShuffle tgt hpref⟩⟩
          | none =>
              simp only [hpref] at htask
              cases hany : findOptimalStorageLocation inv none d.fallbackStoreShuffle with
              | none =>
                  simp only [hany] at htask
                  exact absurd htask (by simp)
              | some tgt =>
                  simp only [hany] at htask
                  obtain ⟨hbin, htgt⟩ : task.sourceBin = src.cellId ∧
                      task.targetBin = tgt.cellId := by
                    cases htask
                    exact ⟨rfl, rfl⟩
                  exact ⟨hbin, tgt, htgt, Or.inr ⟨rfl, rfl⟩⟩

/-- Witness for C7: with no pick location in either block the generator
returns nothing. -/
theorem generateTransferTask_spec_witness :
    generateTransferTask drawsId "SH-001" 1 ([] : Inventory) = none :=
  (generateTransferTask_spec drawsId "SH-001" 1 ([] : Inventory)).1
    (by decide) (by decide)

/-- C7 counterexample to the claim as stated: Block 1 is the more heavily
populated block and yields a pick location, yet the generated transfer task
draws its source from Block 2. -/
theorem generateTransferTask_spec_cex :
    blockOccupiedCount transferCexInv 2 < blockOccupiedCount transferCexInv 1 ∧
      (findOptimalPickLocation transferCexInv (some 1) idShuffle).isSome = true ∧
      (generateTransferTask drawsId "SH-001" 1 transferCexInv).map
          (fun task => task.sourceBin) = some (cellKey 2 1 0 0) := by
  refine ⟨by decide, by decide, by decide⟩

/-! ### Task status monotonicity (C3) -/

theorem tasksMonotone_refl (tasks : List Task) : TasksMonotone tasks tasks :=
  ⟨le_refl _, fun _ _ _ => Or.inl rfl⟩

theorem tasksMonotone_append (old new l : List Task)
    (h : TasksMonotone old new) : TasksMonotone old (new ++ l) := by
  constructor
  · calc old.length ≤ new.length := h.1
      _ ≤ (new ++ l).length := by simp
  · intro i hi hi'
    have hlt : i < new.length := lt_of_lt_of_le hi h.1
    rw [List.getElem_append_left hlt]
    exact h.2 i hi hlt

theorem mapSetStatus_monotone (tasks : List Task) (found : Task)
    (newStatus : TaskStatus) (hmem : found ∈ tasks)
    (hnodup : (tasks.map Task.id).Nodup)
    (hstep : statusStep found.status newStatus) :
    TasksMonotone tasks (tasks.map fun task =>
      if task.id = found.id then { task with status := newStatus } else task) := by
  constructor
  · rw [List.length_map]
  · intro i hi hi'
    simp only [List.getElem_map]
    by_cases hid : tasks[i].id = found.id
    · have heq : tasks[i] = found :=
        List.inj_on_of_nodup_map hnodup (List.getElem_mem hi) hmem hid
      rw [if_pos hid, heq]
      exact hstep
    · rw [if_neg hid]
      exact Or.inl rfl

theorem completeNextTask_tasks_cases (d : RandomDraws) (shuttleId : String)
    (s : DashboardState) :
    (completeNextTask d shuttleId s).tasks = s.tasks ∨
      ∃ found, s.tasks.find? (fun t => decide (t.shuttleId = shuttleId ∧
          t.status = TaskStatus.in_progress)) = some found ∧
        ((completeNextTask d shuttleId s).tasks =
            (s.tasks.map fun task => if task.id = found.id then
              { task with status := TaskStatus.completed } else task) ∨
          ∃ newTask, (completeNextTask d shuttleId s).tasks =
            (s.tasks.map fun task => if task.id = found.id then
              { task with status := TaskStatus.completed } else task) ++ [newTask]) := by
  unfold completeNextTask
  cases hfind : s.tasks.find? (fun t => decide (t.shuttleId = shuttleId ∧
      t.status = TaskStatus.in_progress)) with
  | none => exact Or.inl rfl
  | some found =>
      refine Or.inr ⟨found, rfl, ?_⟩
      dsimp only
      split
      · exact Or.inl rfl
      · split
        · split
          · exact Or.inr ⟨_, rfl⟩
          · exact Or.inl rfl
        · exact Or.inl rfl

/-- C3 (amended): `startNextTask`, `completeNextTask` and `addTask` only
move task statuses forward (pending, then in_progress, then
completed/failed) and never move a task out of completed or failed, given
unique task ids; `updateTaskStatus` writes any supplied status and can
regress a completed task (see the counterexample). -/
theorem task_ops_monotone (d : RandomDraws) (shuttleId : String)
    (s : DashboardState) (tasks : List Task) (task : Task)
    (h1 : (tasks.map Task.id).Nodup) (h2 : (s.tasks.map Task.id).Nodup) :
    TasksMonotone tasks (startNextTask shuttleId tasks).2 ∧
      TasksMonotone s.tasks (completeNextTask d shuttleId s).tasks ∧
      TasksMonotone tasks (addTask task tasks) := by
  refine ⟨?_, ?_, ?_⟩
  · unfold startNextTask
    cases hfind : tasks.find? (fun t => decide (t.shuttleId = shuttleId ∧
        t.status = TaskStatus.pending)) with
    | none => exact tasksMonotone_refl tasks
    | some found =>
        have hmem := List.mem_of_find?_eq_some hfind
        have hpred := List.find?_some hfind
        have hstat : found.status = TaskStatus.pending :=
          (of_decide_eq_true hpred).2
        exact mapSetStatus_monotone tasks found TaskStatus.in_progress hmem h1
          (Or.inr (Or.inl ⟨hstat, Or.inl rfl⟩))
  · rcases completeNextTask_tasks_cases d shuttleId s with heq | ⟨found, hfind, hcases⟩
    · rw [heq]
      exact tasksMonotone_refl s.tasks
    · have hmem := List.mem_of_find?_eq_some hfind
      have hpred := List.find?_some hfind
      have hstat : found.status = TaskStatus.in_progress :=
        (of_decide_eq_true hpred).2
      have hmono := mapSetStatus_monotone s.tasks found TaskStatus.completed hmem h2
        (Or.inr (Or.inr ⟨hstat, Or.inl rfl⟩))
      rcases hcases with heq | ⟨newTask, heq⟩
      · rw [heq]
        exact hmono
      · rw [heq]
        exact tasksMonotone_append _ _ _ hmono
  · constructor
    · simp [addTask]
    · intro i hi hi'
      unfold addTask
      rw [List.getElem_append_left hi]
      exact Or.inl rfl

/-- Witness for C3: starting the fixture task is monotone. -/
theorem task_ops_monotone_witness :
    TasksMonotone [demoTask] (startNextTask "S1" [demoTask]).2 :=
  (task_ops_monotone drawsId "S1"
    { shuttles := [], tasks := [], inventory := [], palletCounter := 0 }
    [demoTask] demoTask (by decide) (by decide)).1

/-- C3 counterexample to the claim as stated: after add, start and
complete, the task is completed, and `updateTaskStatus` then moves it back
to pending — a transition out of completed. -/
theorem task_ops_monotone_cex :
    statusChainTasks.map Task.status = [TaskStatus.completed] ∧
      (updateTaskStatus "T1" TaskStatus.pending statusChainTasks).map Task.status =
        [TaskStatus.pending] ∧
      ¬ statusStep TaskStatus.completed TaskStatus.pending := by
  refine ⟨by decide, by decide, by decide⟩

/-! ### Queue maintenance on task completion (C5) -/

/-- C5 (amended): when `completeNextTask` completes a task, the queue check
counts the shuttle's pending/in_progress tasks in the pre-call task list
(the just-completed task still counts as in_progress there): when that
count is below 2 exactly one generated task is appended — nothing, and no
error, when generation returns nothing — and when it is 2 or more nothing
is appended; the inventory becomes the mutated map exactly when the
mutation succeeded. -/
theorem completeNextTask_queue_maintenance (d : RandomDraws) (shuttleId : String)
    (s : DashboardState) (found : Task) (shuttle : Shuttle)
    (hfind : s.tasks.find? (fun t => decide (t.shuttleId = shuttleId ∧
        t.status = TaskStatus.in_progress)) = some found)
    (hshut : s.shuttles.find? (fun sh => decide (sh.id = shuttleId)) = some shuttle) :
    ((completeNextTask d shuttleId s).inventory =
        (if (applyTaskInventoryOp s found).1 then (applyTaskInventoryOp s found).2.1
         else s.inventory)) ∧
      (shouldGenerateNewTask (s.tasks.filter fun t =>
          decide (t.shuttleId = shuttleId)) = true →
        (generateIntelligentTask d
            (if (applyTaskInventoryOp s found).1 then (applyTaskInventoryOp s found).2.1
             else s.inventory) shuttleId shuttle.z = none →
          (completeNextTask d shuttleId s).tasks =
            s.tasks.map fun task => if task.id = found.id then
              { task with status := TaskStatus.completed } else task) ∧
        (∀ newTask, generateIntelligentTask d
            (if (applyTaskInventoryOp s found).1 then (applyTaskInventoryOp s found).2.1
             else s.inventory) shuttleId shuttle.z = some newTask →
          (completeNextTask d shuttleId s).tasks =
            (s.tasks.map fun task => if task.id = found.id then
              { task with status := TaskStatus.completed } else task) ++ [newTask])) ∧
      (shouldGenerateNewTask (s.tasks.filter fun t =>
          decide (t.shuttleId = shuttleId)) = false →
        (completeNextTask d shuttleId s).tasks =
          s.tasks.map fun task => if task.id = found.id then
            { task with status := TaskStatus.completed } else task) := by
  unfold completeNextTask
  rw [hfind]
  dsimp only
  rw [hshut]
  dsimp only
  by_cases hgen : shouldGenerateNewTask (s.tasks.filter fun t =>
      decide (t.shuttleId = shuttleId)) = true
  · rw [if_pos hgen]
    refine ⟨?_, ?_, ?_⟩
    · cases hg : generateIntelligentTask d
          (if (applyTaskInventoryOp s found).1 then (applyTaskInventoryOp s found).2.1
           else s.inventory) shuttleId shuttle.z with
      | none => rfl
      | some newTask => rfl
    · intro _
      refine ⟨?_, ?_⟩
      · intro hnone
        rw [hnone]
      · intro newTask hsome
        rw [hsome]
    · intro hgen'
      rw [hgen] at hgen'
      simp at hgen'
  · rw [if_neg hgen]
    refine ⟨rfl, ?_, fun _ => rfl⟩
    intro hgen'
    exact absurd hgen' hgen

/-- Witness for C5 on the fixture: the pre-call count is 2, so the
completed task list gains no new entry. -/
theorem completeNextTask_queue_maintenance_witness :
    (completeNextTask drawsId "S1" c5State).tasks =
      c5State.tasks.map fun task => if task.id = c5Task1.id then
        { task with status := TaskStatus.completed } else task :=
  (completeNextTask_queue_maintenance drawsId "S1" c5State c5Task1
    { id := "S1", z := 1 } (by decide) (by decide)).2.2 (by decide)

/-- C5 counterexample to the claim as stated: after completion the
shuttle's pending/in_progress count is 1 (below 2) and generation at the
updated inventory would succeed, yet no task is enqueued, because the code
counts on the pre-call list where the completed task was still
in_progress. -/
theorem completeNextTask_queue_maintenance_cex :
    ((completeNextTask drawsId "S1" c5State).tasks.filter fun t =>
        decide (t.shuttleId = "S1" ∧ (t.status = TaskStatus.pending ∨
          t.status = TaskStatus.in_progress))).length < 2 ∧
      (completeNextTask drawsId "S1" c5State).tasks.length =
        c5State.tasks.length ∧
      (generateIntelligentTask drawsId
          (completeNextTask drawsId "S1" c5State).inventory "S1" 1).isSome = true := by
  refine ⟨by decide, by decide, ?_⟩
  have hinv : (completeNextTask drawsId "S1" c5State).inventory = c5InvAfter := by
    decide
  rw [hinv]
  have hocc : occupiedCount c5InvAfter = 1 := by decide
  have htot : totalCount c5InvAfter = 3 := by decide
  have hu : utilizationRate c5InvAfter = 1/3 := by
    unfold utilizationRate
    rw [hocc, htot]
    norm_num
  have hsel : selectTaskType c5InvAfter drawsId.typeRand = TaskType.INBOUND := by
    show selectTaskType c5InvAfter 0 = TaskType.INBOUND
    unfold selectTaskType
    rw [hu]
    norm_num
  have hgen : generateIntelligentTask drawsId c5InvAfter "S1" 1 =
      generateInboundTask drawsId "S1" 1 c5InvAfter := by
    unfold generateIntelligentTask
    rw [hsel]
  rw [hgen]
  have hloc : findOptimalStorageLocation c5InvAfter none drawsId.storeShuffle =
      some { block := 1, layer := 1, row := 0, cellId := cellKey 1 1 0 1 } := by
    decide
  unfold generateInboundTask
  rw [hloc]
  rfl

end Trackify
